import Mathlib

/-!
Shallow embedding of the VERITAS analytics engine
(`src/veritas_core/engine/analytics.py`) and proofs about it.

Conventions of the embedding:
* a pandas numeric Series is a `List (Option ℚ)`, `none` standing for NaN;
* float arithmetic is embedded exactly: data and float-valued parameters are
  rationals, and the one genuinely irrational quantity (the sample standard
  deviation, a square root) lives in `ℝ`;
* the external statistical kernels the module calls (scipy `f_oneway`,
  `shapiro`, `linregress`, the statsmodels ANCOVA table, sklearn
  `IsolationForest.fit_predict`) are third-party libraries, not code of this
  repository; they are abstracted as function parameters, and theorems
  quantify over them;
* a Python `raise` is the `Except.error` branch of the embedded function.
-/

namespace Veritas

/-- pandas `Series.dropna`: keep the present values, in order. -/
def dropna (xs : List (Option ℚ)) : List ℚ := xs.filterMap id

/-- pandas `Series.mean` of a sample. -/
def seriesMean (xs : List ℚ) : ℚ := xs.sum / xs.length

/-- Sample variance with `ddof = 1`, the square of pandas `Series.std`. -/
def sampleVar (xs : List ℚ) : ℚ :=
  ((xs.map (fun x => (x - seriesMean xs) ^ 2)).sum) / ((xs.length : ℚ) - 1)

/-- pandas `Series.std` (`ddof = 1`) as an exact real number. -/
noncomputable def sampleStd (xs : List ℚ) : ℝ := Real.sqrt (sampleVar xs)

/-- The distinct errors `calculate_cpk` raises, one constructor per `raise`
site (the two `ValueError` sites about the data are kept apart). -/
inductive CpkError where
  | typeError
  | invalidSpec
  | emptyData
  | zeroStd
deriving DecidableEq

/-- Embedding of `analytics.calculate_cpk`.  The limits are `Option ℚ`
because the Python function is called with `None` for an absent limit; the
`isinstance(lsl, (int, float))` check rejects `None` (that is the
`typeError` branch), so the `np.inf` fallbacks on the `cpu`/`cpl` lines are
unreachable, exactly as in the source. -/
noncomputable def calculate_cpk (data : List (Option ℚ)) (lsl usl : Option ℚ) :
    Except CpkError ℝ :=
  match lsl, usl with
  | some l, some u =>
    if u ≤ l then .error .invalidSpec
    else
      let clean := dropna data
      if clean.isEmpty then .error .emptyData
      else if sampleVar clean = 0 then .error .zeroStd
      else
        let μ : ℝ := (seriesMean clean : ℚ)
        let σ : ℝ := sampleStd clean
        .ok (min (((u : ℚ) - μ) / (3 * σ)) ((μ - (l : ℚ)) / (3 * σ)))
  | _, _ => .error .typeError

/-- Unfolding lemma for the success path of `calculate_cpk`. -/
theorem calculate_cpk_ok (data : List (Option ℚ)) (l u : ℚ)
    (hlu : l < u) (hne : dropna data ≠ []) (hsd : sampleVar (dropna data) ≠ 0) :
    calculate_cpk data (some l) (some u) =
      .ok (min (((u : ℚ) - (seriesMean (dropna data) : ℚ)) / (3 * sampleStd (dropna data)))
               (((seriesMean (dropna data) : ℚ) - (l : ℚ)) / (3 * sampleStd (dropna data)))) := by
  simp only [calculate_cpk, if_neg (not_le.mpr hlu), List.isEmpty_iff, hne, if_neg, hsd,
    if_false]

/-- C1: with both limits given and `lsl < usl`, a nonempty NaN-cleaned sample
and nonzero sample standard deviation, `calculate_cpk` returns
`min (Cpu, Cpl)` with `Cpu = (usl − μ)/(3σ)` and `Cpl = (μ − lsl)/(3σ)`,
`μ` and `σ` the mean and sample standard deviation of the cleaned sample. -/
theorem calculate_cpk_is_min_cpu_cpl (data : List (Option ℚ)) (l u : ℚ)
    (hlu : l < u) (hne : dropna data ≠ []) (hsd : sampleVar (dropna data) ≠ 0) :
    calculate_cpk data (some l) (some u) =
      .ok (min (((u : ℚ) - (seriesMean (dropna data) : ℚ)) / (3 * sampleStd (dropna data)))
               (((seriesMean (dropna data) : ℚ) - (l : ℚ)) / (3 * sampleStd (dropna data)))) :=
  calculate_cpk_ok data l u hlu hne hsd

/-- Witness for C1 at the sample `[1, NaN, 2]` with limits `0 < 10`. -/
theorem calculate_cpk_is_min_cpu_cpl_witness :
    (0 : ℚ) < 10 ∧ dropna [some 1, none, some 2] ≠ [] ∧
    sampleVar (dropna [some 1, none, some 2]) = 1 / 2 ∧
    calculate_cpk [some 1, none, some 2] (some 0) (some 10) =
      .ok (min (((10 : ℚ) - (seriesMean (dropna [some 1, none, some 2]) : ℚ)) /
                  (3 * sampleStd (dropna [some 1, none, some 2])))
               (((seriesMean (dropna [some 1, none, some 2]) : ℚ) - ((0 : ℚ) : ℚ)) /
                  (3 * sampleStd (dropna [some 1, none, some 2])))) :=
  ⟨by norm_num, by decide,
    by norm_num [sampleVar, seriesMean, dropna, List.filterMap_cons, List.filterMap_nil],
    calculate_cpk_is_min_cpu_cpl [some 1, none, some 2] 0 10 (by norm_num) (by decide)
      (by norm_num [sampleVar, seriesMean, dropna, List.filterMap_cons, List.filterMap_nil])⟩

/-- The sample of `test_calculate_cpk_normal`:
`[9.9, 10.0, 10.1, 9.8, 10.2, 9.95, 10.05]` as exact rationals. -/
def cpkTestData : List (Option ℚ) :=
  [some (99 / 10), some 10, some (101 / 10), some (49 / 5), some (51 / 5), some (199 / 20),
    some (201 / 20)]

theorem cpkTestData_mean : seriesMean (dropna cpkTestData) = 10 := by
  norm_num [seriesMean, dropna, cpkTestData, List.filterMap_cons, List.filterMap_nil]

theorem cpkTestData_var : sampleVar (dropna cpkTestData) = 7 / 400 := by
  norm_num [sampleVar, seriesMean, dropna, cpkTestData, List.filterMap_cons, List.filterMap_nil]

/-- Exact value of the Cpk of the test sample with limits `9.5 < 10.5`:
the mean is exactly 10, the sample variance is `7/400`, so
`Cpk = (1/2) / (3·√7/20) = 10/(3·√7) ≈ 1.2599`. -/
theorem cpk_concrete_eval :
    calculate_cpk cpkTestData (some (19 / 2)) (some (21 / 2)) =
      .ok (10 / (3 * Real.sqrt 7)) := by
  rw [calculate_cpk_ok cpkTestData (19 / 2) (21 / 2) (by norm_num) (by decide)
    (by rw [cpkTestData_var]; norm_num)]
  have h400 : sampleStd (dropna cpkTestData) = Real.sqrt 7 / 20 := by
    rw [sampleStd, cpkTestData_var, show (((7 / 400 : ℚ) : ℝ)) = 7 / 20 ^ 2 by norm_num,
      Real.sqrt_div (by norm_num : (0:ℝ) ≤ 7), Real.sqrt_sq (by norm_num : (0:ℝ) ≤ 20)]
  rw [cpkTestData_mean, h400]
  have h7 : Real.sqrt 7 ≠ 0 := ne_of_gt (Real.sqrt_pos.mpr (by norm_num))
  congr 1
  push_cast
  norm_num
  field_simp
  ring

/-- C2 counterexample: on the sample of `test_calculate_cpk_normal` with
`lsl = 9.5`, `usl = 10.5`, `calculate_cpk` returns exactly `10/(3·√7)`,
which is NOT greater than 1.33 (it is ≈ 1.2599; the expected bound 1.33
only holds for the population standard deviation, not the sample one the
code uses). -/
theorem cpk_concrete_not_gt_133 :
    calculate_cpk cpkTestData (some (19 / 2)) (some (21 / 2)) =
      .ok (10 / (3 * Real.sqrt 7)) ∧
    ¬ ((10 : ℝ) / (3 * Real.sqrt 7) > 133 / 100) := by
  refine ⟨cpk_concrete_eval, ?_⟩
  rw [not_lt, div_le_iff₀ (by positivity)]
  have h7 : (1000 / 399 : ℝ) ≤ Real.sqrt 7 :=
    (Real.le_sqrt' (by norm_num)).mpr (by norm_num)
  nlinarith [h7]

/-- C2 amended: the Cpk of the test sample is `10/(3·√7) ≈ 1.2599`, which is
strictly greater than 1.25 (but not greater than 1.33). -/
theorem cpk_concrete_gt_125 :
    calculate_cpk cpkTestData (some (19 / 2)) (some (21 / 2)) =
      .ok (10 / (3 * Real.sqrt 7)) ∧
    (10 : ℝ) / (3 * Real.sqrt 7) > 5 / 4 := by
  refine ⟨cpk_concrete_eval, ?_⟩
  rw [gt_iff_lt, lt_div_iff₀ (by positivity)]
  have h7 : Real.sqrt 7 < 8 / 3 := (Real.sqrt_lt' (by norm_num)).mpr (by norm_num)
  nlinarith [h7, Real.sqrt_nonneg 7]

/-- C3: at the single-sided call of the module's own test
`test_calculate_cpk_single_sided_usl` (`lsl = None`, `usl = 15.0`,
data `[10, 11, 12, 10.5, 11.5]`), `calculate_cpk` hits the
`isinstance(lsl, (int, float))` check and raises `TypeError` instead of
returning `Cpu`; the `else np.inf` fallbacks further down are unreachable. -/
theorem cpk_single_sided_usl_type_error :
    calculate_cpk [some 10, some 11, some 12, some (21 / 2), some (23 / 2)] none (some 15) =
      .error CpkError.typeError := rfl

/-! ### `perform_anova` -/

/-- One record of the (value_col, group_col) view of the ANOVA input.  The
group key is a plain string (rows with a missing group key are dropped by
pandas `groupby` before the function ever sees them and play no role in the
claims); the value may be missing. -/
structure AnovaRow where
  group : String
  value : Option ℚ
deriving DecidableEq

/-- The distinct group keys of `df.groupby(group_col)` (order irrelevant to
the claims; appearance order is used here). -/
def groupKeys (df : List AnovaRow) : List String := (df.map (·.group)).eraseDups

/-- `group_df[value_col].dropna()` for one group key. -/
def groupValues (df : List AnovaRow) (g : String) : List ℚ :=
  (df.filter (fun r => r.group == g)).filterMap (·.value)

/-- The dict `perform_anova` returns: either both statistics, or both `None`
plus a reason string. -/
structure AnovaResult where
  f_stat : Option ℚ
  p_value : Option ℚ
  reason : Option String
deriving DecidableEq

/-- Embedding of `analytics.perform_anova`.  `f_oneway` abstracts
`scipy.stats.f_oneway`, returning the pair (F statistic, p-value). -/
def perform_anova (f_oneway : List (List ℚ) → ℚ × ℚ) (df : List AnovaRow) : AnovaResult :=
  let groups := (groupKeys df).map (groupValues df)
  if groups.length < 2 ∨ groups.any List.isEmpty then
    ⟨none, none, some "Insufficient data (need >= 2 groups with non-empty data)"⟩
  else
    ⟨some (f_oneway groups).1, some (f_oneway groups).2, none⟩

/-- C4: whenever fewer than 2 non-empty groups remain after the per-group
dropna, `perform_anova` returns the insufficient-data marker
(`f_stat = None`, `p_value = None`, with a reason) instead of a well-formed
`{f_stat, p_value}` result, for every statistical kernel. -/
theorem perform_anova_insufficient_groups (f_oneway : List (List ℚ) → ℚ × ℚ)
    (df : List AnovaRow)
    (h : ((((groupKeys df).map (groupValues df)).filter (fun g => !g.isEmpty)).length) < 2) :
    perform_anova f_oneway df =
      ⟨none, none, some "Insufficient data (need >= 2 groups with non-empty data)"⟩ := by
  rw [perform_anova]
  rcases hA : ((groupKeys df).map (groupValues df)).any List.isEmpty with hf | ht
  · have hall : ∀ g ∈ (groupKeys df).map (groupValues df), !g.isEmpty := by
      intro g hg
      have := List.any_eq_false.mp hA g hg
      simp [this]
    rw [List.filter_eq_self.mpr hall] at h
    rw [if_pos (Or.inl h)]
  · simp

/-- Witness for C4: a single group `A = [1]` (one non-empty group). -/
theorem perform_anova_insufficient_groups_witness :
    ((((groupKeys [⟨"A", some 1⟩]).map (groupValues [⟨"A", some 1⟩])).filter
        (fun g => !g.isEmpty)).length) < 2 ∧
    perform_anova (fun _ => (0, 0)) [⟨"A", some 1⟩] =
      ⟨none, none, some "Insufficient data (need >= 2 groups with non-empty data)"⟩ :=
  ⟨by decide, perform_anova_insufficient_groups (fun _ => (0, 0)) [⟨"A", some 1⟩] (by decide)⟩

/-! ### `perform_normality_test` -/

/-- The dict `perform_normality_test` returns. -/
structure NormalityResult where
  statistic : Option ℚ
  p_value : Option ℚ
  conclusion : String
deriving DecidableEq

/-- Embedding of `analytics.perform_normality_test`.  `shapiro` abstracts
`scipy.stats.shapiro` (statistic, p-value); the numeric-dtype check always
passes in this embedding because the data is rational by construction. -/
def perform_normality_test (shapiro : List ℚ → ℚ × ℚ) (data : List (Option ℚ)) :
    Except String NormalityResult :=
  let clean := dropna data
  if clean.isEmpty then .error "Data series is empty after dropping NaN values"
  else if clean.length < 3 then
    .ok ⟨none, none, "Insufficient data (need >= 3 non-NaN values)"⟩
  else
    let sp := shapiro clean
    .ok ⟨some sp.1, some sp.2,
      if sp.2 > 1 / 20 then "Data appears normal (p > 0.05)."
      else "Data is likely non-normal (p <= 0.05)."⟩

/-- C5 counterexample: on a series with ZERO non-missing values (a single
NaN), `perform_normality_test` does fail — it raises
`ValueError("Data series is empty after dropping NaN values")` — rather
than returning the null-statistic soft result the claim promises for every
count below 3. -/
theorem normality_zero_values_fails :
    perform_normality_test (fun _ => (0, 0)) [none] =
      .error "Data series is empty after dropping NaN values" ∧
    (perform_normality_test (fun _ => (0, 0)) [none]).isOk = false :=
  ⟨rfl, rfl⟩

/-- C5 amended: with at least one but fewer than 3 non-missing values,
`perform_normality_test` does not fail: it returns null statistic, null
p-value and the explanatory conclusion; with zero non-missing values it
instead raises `ValueError`, as its own docstring documents. -/
theorem normality_few_values_soft (shapiro : List ℚ → ℚ × ℚ) (data : List (Option ℚ))
    (hne : dropna data ≠ []) (hlt : (dropna data).length < 3) :
    perform_normality_test shapiro data =
      .ok ⟨none, none, "Insufficient data (need >= 3 non-NaN values)"⟩ := by
  rw [perform_normality_test]
  rw [if_neg (by simpa [List.isEmpty_iff] using hne), if_pos hlt]

/-- Witness for the amended C5 at the one-value series `[5]`. -/
theorem normality_few_values_soft_witness :
    dropna [some 5] ≠ [] ∧ (dropna [some 5]).length < 3 ∧
    perform_normality_test (fun _ => (0, 0)) [some 5] =
      .ok ⟨none, none, "Insufficient data (need >= 3 non-NaN values)"⟩ :=
  ⟨by decide, by decide,
    normality_few_values_soft (fun _ => (0, 0)) [some 5] (by decide) (by decide)⟩

/-! ### `test_stability_poolability` and `calculate_stability_projection` -/

/-- One stability record restricted to the columns
`['lot_id', 'timepoint_months', assay]`; any field may be missing. -/
structure StabilityRow where
  lot_id : Option String
  timepoint_months : Option ℚ
  assay : Option ℚ
deriving DecidableEq

/-- A stability record after `df[required_cols].dropna()`. -/
structure CleanStabilityRow where
  lot_id : String
  timepoint_months : ℚ
  assay : ℚ
deriving DecidableEq

/-- `df[required_cols].dropna()`: keep the rows where all three fields are
present, in order. -/
def dropnaRows (df : List StabilityRow) : List CleanStabilityRow :=
  df.filterMap (fun r =>
    match r.lot_id, r.timepoint_months, r.assay with
    | some l, some t, some a => some ⟨l, t, a⟩
    | _, _, _ => none)

/-- `df_clean['lot_id'].nunique()`. -/
def nuniqueLots (rows : List CleanStabilityRow) : ℕ :=
  ((rows.map (·.lot_id)).eraseDups).length

/-- The dict `test_stability_poolability` returns. -/
structure PoolabilityResult where
  poolable : Bool
  p_value : ℚ
  reason : String
deriving DecidableEq

/-- Embedding of `analytics.test_stability_poolability`.  `ancova_p`
abstracts the statsmodels pipeline (`ols` fit of
`assay ~ timepoint_months * C(lot_id)` plus `anova_lm`), returning the pair
(main lot-effect p-value `PR(>F)["C(lot_id)"]`, interaction p-value
`PR(>F)["timepoint_months:C(lot_id)"]`); it is total, so the broad
`except` fallback of the source is unreachable in the embedding. -/
def test_stability_poolability (ancova_p : List CleanStabilityRow → ℚ × ℚ)
    (df : List StabilityRow) : PoolabilityResult :=
  let df_clean := dropnaRows df
  if nuniqueLots df_clean < 2 ∨ df_clean.length < 4 then
    ⟨true, 1, "Insufficient data (need >= 2 lots and >= 4 rows)"⟩
  else
    let ps := ancova_p df_clean
    ⟨decide (ps.1 > 1 / 20) && decide (ps.2 > 1 / 20), min ps.1 ps.2, "ANCOVA test completed"⟩

/-- C6: on the ANCOVA path (≥2 distinct lots and ≥4 cleaned rows),
`poolable` is true iff both the main lot-effect p-value and the
timepoint×lot interaction p-value exceed 0.05, and the reported p-value is
the minimum of the two; with fewer lots or rows the function
short-circuits to `{poolable: true, p_value: 1.0}` with a reason. -/
theorem poolability_spec (ancova_p : List CleanStabilityRow → ℚ × ℚ)
    (df : List StabilityRow) :
    (nuniqueLots (dropnaRows df) < 2 ∨ (dropnaRows df).length < 4 →
      test_stability_poolability ancova_p df =
        ⟨true, 1, "Insufficient data (need >= 2 lots and >= 4 rows)"⟩) ∧
    (¬ (nuniqueLots (dropnaRows df) < 2 ∨ (dropnaRows df).length < 4) →
      ((test_stability_poolability ancova_p df).poolable = true ↔
          (ancova_p (dropnaRows df)).1 > 1 / 20 ∧ (ancova_p (dropnaRows df)).2 > 1 / 20) ∧
      (test_stability_poolability ancova_p df).p_value =
        min (ancova_p (dropnaRows df)).1 (ancova_p (dropnaRows df)).2) := by
  constructor
  · intro h
    rw [test_stability_poolability, if_pos h]
  · intro h
    rw [test_stability_poolability, if_neg h]
    constructor
    · simp [Bool.and_eq_true, decide_eq_true_iff]
    · rfl

/-- Witness for C6: two lots, four rows, main p = 0.10 but interaction
p = 0.04, so the data is not poolable and the reported p-value is 0.04. -/
theorem poolability_spec_witness :
    (¬ (nuniqueLots (dropnaRows
          [⟨some "L1", some 0, some 99⟩, ⟨some "L1", some 6, some 98⟩,
           ⟨some "L2", some 0, some 99⟩, ⟨some "L2", some 6, some 97⟩]) < 2 ∨
        (dropnaRows
          [⟨some "L1", some 0, some 99⟩, ⟨some "L1", some 6, some 98⟩,
           ⟨some "L2", some 0, some 99⟩, ⟨some "L2", some 6, some 97⟩]).length < 4)) ∧
    ((test_stability_poolability (fun _ => (1 / 10, 1 / 25))
        [⟨some "L1", some 0, some 99⟩, ⟨some "L1", some 6, some 98⟩,
         ⟨some "L2", some 0, some 99⟩, ⟨some "L2", some 6, some 97⟩]).poolable = true ↔
        (1 / 10 : ℚ) > 1 / 20 ∧ (1 / 25 : ℚ) > 1 / 20) ∧
    (test_stability_poolability (fun _ => (1 / 10, 1 / 25))
        [⟨some "L1", some 0, some 99⟩, ⟨some "L1", some 6, some 98⟩,
         ⟨some "L2", some 0, some 99⟩, ⟨some "L2", some 6, some 97⟩]).p_value =
      min (1 / 10 : ℚ) (1 / 25) :=
  ⟨by decide,
    (poolability_spec (fun _ => (1 / 10, 1 / 25))
      [⟨some "L1", some 0, some 99⟩, ⟨some "L1", some 6, some 98⟩,
       ⟨some "L2", some 0, some 99⟩, ⟨some "L2", some 6, some 97⟩]).2 (by decide)⟩

/-- The dict `calculate_stability_projection` returns (`pred_x`/`pred_y`
are the two-point numpy arrays). -/
structure ProjectionResult where
  slope : ℚ
  intercept : ℚ
  r_squared : ℚ
  pred_x : List ℚ
  pred_y : List ℚ
deriving DecidableEq

/-- The all-zero empty result of the insufficient-data branches. -/
def emptyProjection : ProjectionResult := ⟨0, 0, 0, [], []⟩

/-- The `timepoint_months` column of a cleaned frame. -/
def timesOf (rows : List CleanStabilityRow) : List ℚ := rows.map (·.timepoint_months)

/-- The (timepoint, assay) points handed to `stats.linregress`. -/
def pointsOf (rows : List CleanStabilityRow) : List (ℚ × ℚ) :=
  rows.map (fun r => (r.timepoint_months, r.assay))

/-- pandas `Series.min` on a nonempty column (0 on an empty one, which the
guards make unreachable). -/
def seriesMin : List ℚ → ℚ
  | [] => 0
  | x :: xs => xs.foldl min x

/-- pandas `Series.max`, same convention. -/
def seriesMax : List ℚ → ℚ
  | [] => 0
  | x :: xs => xs.foldl max x

/-- The success result: regression output `(slope, intercept, r_value)`
plus the two-point prediction range over the min/max timepoint of the WHOLE
cleaned frame (the source computes `pred_x` from `df_clean` in both
branches). -/
def mkProjection (reg : ℚ × ℚ × ℚ) (df_clean : List CleanStabilityRow) : ProjectionResult :=
  let x0 := seriesMin (timesOf df_clean)
  let x1 := seriesMax (timesOf df_clean)
  ⟨reg.1, reg.2.1, reg.2.2 ^ 2, [x0, x1],
    [reg.2.1 + reg.1 * x0, reg.2.1 + reg.1 * x1]⟩

/-- Embedding of `analytics.calculate_stability_projection`.  `linregress`
abstracts `scipy.stats.linregress`, returning
(slope, intercept, r_value); being total, it makes the broad `except`
fallback of the source unreachable.  In the non-pooled branch the first
lot is `df_clean['lot_id'].unique()[0]`, i.e. the lot of the first cleaned
row (`unique` keeps appearance order); the empty match arm is unreachable
under the length guard. -/
def calculate_stability_projection (linregress : List (ℚ × ℚ) → ℚ × ℚ × ℚ)
    (df : List StabilityRow) (use_pooled_data : Bool) : ProjectionResult :=
  let df_clean := dropnaRows df
  if df_clean.length < 2 then emptyProjection
  else if use_pooled_data then
    mkProjection (linregress (pointsOf df_clean)) df_clean
  else
    match df_clean with
    | [] => emptyProjection
    | r :: _ =>
      let lot_df := df_clean.filter (fun s => s.lot_id == r.lot_id)
      if lot_df.length < 2 then emptyProjection
      else mkProjection (linregress (pointsOf lot_df)) df_clean

/-- C7: with `use_pooled_data = False` the regression runs on the rows of
the first lot in iteration order only; with `True` it runs on all cleaned
rows jointly; with fewer than 2 usable points the result is the all-null
empty result; and on every success path the prediction range is the
min/max observed timepoint of the cleaned data. -/
theorem projection_spec (linregress : List (ℚ × ℚ) → ℚ × ℚ × ℚ) (df : List StabilityRow) :
    ((dropnaRows df).length < 2 →
      ∀ b, calculate_stability_projection linregress df b = emptyProjection) ∧
    (2 ≤ (dropnaRows df).length →
      calculate_stability_projection linregress df true =
        { slope := (linregress (pointsOf (dropnaRows df))).1
          intercept := (linregress (pointsOf (dropnaRows df))).2.1
          r_squared := (linregress (pointsOf (dropnaRows df))).2.2 ^ 2
          pred_x := [seriesMin (timesOf (dropnaRows df)), seriesMax (timesOf (dropnaRows df))]
          pred_y := [(linregress (pointsOf (dropnaRows df))).2.1 +
                       (linregress (pointsOf (dropnaRows df))).1 *
                         seriesMin (timesOf (dropnaRows df)),
                     (linregress (pointsOf (dropnaRows df))).2.1 +
                       (linregress (pointsOf (dropnaRows df))).1 *
                         seriesMax (timesOf (dropnaRows df))] }) ∧
    (∀ r rest, dropnaRows df = r :: rest → 2 ≤ (dropnaRows df).length →
      (2 ≤ ((dropnaRows df).filter (fun s => s.lot_id == r.lot_id)).length →
        calculate_stability_projection linregress df false =
          mkProjection
            (linregress (pointsOf ((dropnaRows df).filter (fun s => s.lot_id == r.lot_id))))
            (dropnaRows df)) ∧
      (((dropnaRows df).filter (fun s => s.lot_id == r.lot_id)).length < 2 →
        calculate_stability_projection linregress df false = emptyProjection)) := by
  refine ⟨?_, ?_, ?_⟩
  · intro h b
    rw [calculate_stability_projection, if_pos h]
  · intro h
    rw [calculate_stability_projection, if_neg (not_lt.mpr h), if_pos rfl]
    rfl
  · intro r rest hcons h
    constructor
    · intro hlot
      rw [calculate_stability_projection, if_neg (not_lt.mpr h)]
      simp only [Bool.false_eq_true, if_false, hcons]
      rw [← hcons, if_neg (not_lt.mpr hlot)]
    · intro hlot
      rw [calculate_stability_projection, if_neg (not_lt.mpr h)]
      simp only [Bool.false_eq_true, if_false, hcons]
      rw [← hcons, if_pos hlot]

/-- The 3-row, two-lot frame used by the C7 witness. -/
def projWitnessDF : List StabilityRow :=
  [⟨some "L1", some 0, some 100⟩, ⟨some "L1", some 6, some 99⟩, ⟨some "L2", some 3, some 98⟩]

/-- The stubbed regression kernel used by the C7 witness. -/
def projWitnessReg : List (ℚ × ℚ) → ℚ × ℚ × ℚ := fun _ => (-1 / 10, 100, 9 / 10)

/-- Witness for C7 at `projWitnessDF`: the non-pooled branch regresses on
the 2 rows of lot L1 only, while the prediction range spans the min/max
timepoints of the whole cleaned frame. -/
theorem projection_spec_witness :
    dropnaRows projWitnessDF =
      (⟨"L1", 0, 100⟩ : CleanStabilityRow) :: [⟨"L1", 6, 99⟩, ⟨"L2", 3, 98⟩] ∧
    2 ≤ (dropnaRows projWitnessDF).length ∧
    2 ≤ ((dropnaRows projWitnessDF).filter
          (fun s => s.lot_id == (⟨"L1", 0, 100⟩ : CleanStabilityRow).lot_id)).length ∧
    calculate_stability_projection projWitnessReg projWitnessDF false =
      mkProjection
        (projWitnessReg (pointsOf ((dropnaRows projWitnessDF).filter
          (fun s => s.lot_id == (⟨"L1", 0, 100⟩ : CleanStabilityRow).lot_id))))
        (dropnaRows projWitnessDF) :=
  ⟨by decide, by decide, by decide,
    ((projection_spec projWitnessReg projWitnessDF).2.2 ⟨"L1", 0, 100⟩
      [⟨"L1", 6, 99⟩, ⟨"L2", 3, 98⟩] (by decide) (by decide)).1 (by decide)⟩

/-! ### `apply_qc_rules` -/

/-- One HPLC record restricted to the four fixed key columns; every field
may be missing. -/
structure QCRow where
  sample_id : Option String
  batch_id : Option String
  purity : Option ℚ
  bio_activity : Option ℚ
deriving DecidableEq

/-- The QC input frame: its column-name list (what `df.columns` sees, so a
missing key column is representable) plus the row data of the key columns. -/
structure QCDataFrame where
  columns : List String
  rows : List QCRow
deriving DecidableEq

/-- The `rules_config` dict: `.get(name, False)` of the three toggles. -/
structure RulesConfig where
  check_nulls : Bool
  check_negatives : Bool
  check_spec_limits : Bool
deriving DecidableEq

/-- One entry of `app_config.process_capability.spec_limits`. -/
structure SpecLimit where
  lsl : Option ℚ
  usl : Option ℚ
deriving DecidableEq

/-- The spec-limit table in iteration order of `spec_limits.items()`. -/
abbrev SpecLimits := List (String × SpecLimit)

/-- The fixed `key_cols` of `apply_qc_rules`. -/
def keyCols : List String := ["sample_id", "batch_id", "purity", "bio_activity"]

/-- The key columns that are null in a row
(`row[key_cols].index[row[key_cols].isnull()].tolist()`). -/
def nullKeyCols (r : QCRow) : List String :=
  (if r.sample_id.isNone then ["sample_id"] else []) ++
  (if r.batch_id.isNone then ["batch_id"] else []) ++
  (if r.purity.isNone then ["purity"] else []) ++
  (if r.bio_activity.isNone then ["bio_activity"] else [])

/-- `df[key_cols].isnull().any(axis=1)` for one row. -/
def hasNullKey (r : QCRow) : Bool :=
  r.sample_id.isNone || r.batch_id.isNone || r.purity.isNone || r.bio_activity.isNone

/-- `df['bio_activity'] < 0` for one row (false on NaN, as in pandas). -/
def isNegativeBio (r : QCRow) : Bool :=
  match r.bio_activity with
  | some v => decide (v < 0)
  | none => false

/-- `row[cqa]` for the numeric CQA columns.  The identifier columns are
never keyed in the spec-limit table (a numeric comparison on them would
raise in pandas), so they and unknown names read as missing. -/
def colVal (r : QCRow) : String → Option ℚ
  | "purity" => r.purity
  | "bio_activity" => r.bio_activity
  | _ => none

/-- The `oor_mask` of the spec-limit check for one cell: below a given lsl
or above a given usl, an absent bound unconstrained, NaN never flagged. -/
def outOfSpec (spec : SpecLimit) (v : Option ℚ) : Bool :=
  match v with
  | none => false
  | some x =>
    (match spec.lsl with | some l => decide (x < l) | none => false) ||
    (match spec.usl with | some u => decide (u < x) | none => false)

/-- One output row of the discrepancy report. -/
structure Discrepancy where
  sample_id : Option String
  issue : String
  details : String
deriving DecidableEq

/-- The output frame: the fixed column list plus the discrepancy rows (both
return paths of the source produce exactly these columns). -/
structure QCReport where
  columns : List String
  rows : List Discrepancy
deriving DecidableEq

/-- The fixed output schema `['sample_id', 'Issue', 'Details']`. -/
def qcReportCols : List String := ["sample_id", "Issue", "Details"]

/-- Embedding of `analytics.apply_qc_rules` (detail strings are rendered
slightly more plainly than the Python f-strings; no claim depends on
them). -/
def apply_qc_rules (df : QCDataFrame) (rules_config : RulesConfig)
    (spec_limits : SpecLimits) : Except String QCReport :=
  if ¬ ∀ c ∈ keyCols, c ∈ df.columns then
    .error "DataFrame must contain columns: [sample_id, batch_id, purity, bio_activity]"
  else
    let nullRows :=
      if rules_config.check_nulls then
        (df.rows.filter hasNullKey).map (fun r =>
          (⟨r.sample_id, "Missing Value",
            "Null found in: " ++ String.intercalate ", " (nullKeyCols r)⟩ : Discrepancy))
      else []
    let negRows :=
      if rules_config.check_negatives then
        (df.rows.filter isNegativeBio).map (fun r =>
          (⟨r.sample_id, "Negative Value", "bio_activity is negative"⟩ : Discrepancy))
      else []
    let specRows :=
      if rules_config.check_spec_limits then
        spec_limits.flatMap (fun p =>
          if p.1 ∈ df.columns then
            (df.rows.filter (fun r => outOfSpec p.2 (colVal r p.1))).map (fun r =>
              (⟨r.sample_id, "Out of Specification",
                p.1 ++ " is outside the specification limits"⟩ : Discrepancy))
          else [])
      else []
    .ok ⟨qcReportCols, nullRows ++ negRows ++ specRows⟩

/-- How many spec-limit entries flag a given row. -/
def specViolationCount (spec_limits : SpecLimits) (cols : List String) (r : QCRow) : ℕ :=
  (spec_limits.filter (fun p => decide (p.1 ∈ cols) && outOfSpec p.2 (colVal r p.1))).length

/-- The spec-check rows of a single-record frame, as a filter-and-map over
the spec-limit table. -/
theorem flatMap_spec_single (r : QCRow) (cols : List String) (l : SpecLimits) :
    (l.flatMap (fun p =>
      if p.1 ∈ cols then
        List.map (fun row =>
          (⟨row.sample_id, "Out of Specification",
            p.1 ++ " is outside the specification limits"⟩ : Discrepancy))
          (if outOfSpec p.2 (colVal r p.1) = true then [r] else [])
      else [])) =
    (l.filter (fun p => decide (p.1 ∈ cols) && outOfSpec p.2 (colVal r p.1))).map
      (fun p => (⟨r.sample_id, "Out of Specification",
        p.1 ++ " is outside the specification limits"⟩ : Discrepancy)) := by
  induction l with
  | nil => rfl
  | cons p l ih =>
    rw [List.flatMap_cons, List.filter_cons, ih]
    by_cases h1 : p.1 ∈ cols
    · by_cases h2 : outOfSpec p.2 (colVal r p.1) = true
      · simp [h1, h2]
      · simp [h1, h2]
    · simp [h1]

/-- C8: with all three checks enabled, a record violating the null check
and exactly one spec-limit entry (and not the negative check) yields
exactly two discrepancy rows, one per violated rule; and a run in which no
record violates any rule returns the report with zero rows but the fixed
columns (`.ok`, never a null result). -/
theorem qc_rules_composability (spec_limits : SpecLimits) (cols : List String) :
    (∀ r : QCRow, (∀ c ∈ keyCols, c ∈ cols) → hasNullKey r = true → isNegativeBio r = false →
      specViolationCount spec_limits cols r = 1 →
      ∃ d1 d2 : Discrepancy,
        apply_qc_rules ⟨cols, [r]⟩ ⟨true, true, true⟩ spec_limits =
          .ok ⟨qcReportCols, [d1, d2]⟩ ∧
        d1.issue = "Missing Value" ∧ d2.issue = "Out of Specification" ∧
        d1.sample_id = r.sample_id ∧ d2.sample_id = r.sample_id) ∧
    (∀ rws : List QCRow, (∀ c ∈ keyCols, c ∈ cols) →
      (∀ r ∈ rws, hasNullKey r = false ∧ isNegativeBio r = false ∧
        specViolationCount spec_limits cols r = 0) →
      apply_qc_rules ⟨cols, rws⟩ ⟨true, true, true⟩ spec_limits = .ok ⟨qcReportCols, []⟩) := by
  constructor
  · intro r hc hn hneg hs
    obtain ⟨p, hp⟩ := List.length_eq_one.mp hs
    refine ⟨⟨r.sample_id, "Missing Value",
        "Null found in: " ++ String.intercalate ", " (nullKeyCols r)⟩,
      ⟨r.sample_id, "Out of Specification",
        p.1 ++ " is outside the specification limits"⟩, ?_, rfl, rfl, rfl, rfl⟩
    rw [apply_qc_rules, if_neg (not_not_intro hc)]
    simp only [List.filter_cons, List.filter_nil, hn, hneg, if_true, if_false,
      Bool.false_eq_true, List.map_cons, List.map_nil]
    rw [flatMap_spec_single r cols spec_limits]
    rw [hp]
    rfl
  · intro rws hc hclean
    rw [apply_qc_rules, if_neg (not_not_intro hc)]
    have h1 : rws.filter hasNullKey = [] :=
      List.filter_eq_nil_iff.mpr (fun r hr => by simp [(hclean r hr).1])
    have h2 : rws.filter isNegativeBio = [] :=
      List.filter_eq_nil_iff.mpr (fun r hr => by simp [(hclean r hr).2.1])
    have h3 : (spec_limits.flatMap (fun p =>
        if p.1 ∈ cols then
          ((rws.filter (fun r => outOfSpec p.2 (colVal r p.1))).map (fun r =>
            (⟨r.sample_id, "Out of Specification",
              p.1 ++ " is outside the specification limits"⟩ : Discrepancy)))
        else [])) = [] := by
      refine List.flatMap_eq_nil_iff.mpr (fun p hpmem => ?_)
      by_cases h1 : p.1 ∈ cols
      · have : rws.filter (fun r => outOfSpec p.2 (colVal r p.1)) = [] := by
          refine List.filter_eq_nil_iff.mpr (fun r hr hout => ?_)
          have hcount := (hclean r hr).2.2
          rw [specViolationCount] at hcount
          have hmem : p ∈ spec_limits.filter
              (fun q => decide (q.1 ∈ cols) && outOfSpec q.2 (colVal r q.1)) := by
            refine List.mem_filter.mpr ⟨hpmem, ?_⟩
            simp [h1, hout]
          rw [List.length_eq_zero.mp hcount] at hmem
          exact absurd hmem (List.not_mem_nil p)
        simp [h1, this]
      · simp [h1]
    simp only [if_true, h1, h2, h3, List.map_nil, List.append_nil]

/-- Witness for C8: the record `(S1, null batch, purity 110, bio 5)` under
the single spec limit `purity ∈ [95, 105]` fires the null check and the
spec check, giving exactly two rows; the clean record
`(S1, B1, 100, 5)` gives the empty report with the fixed columns. -/
theorem qc_rules_composability_witness :
    (∃ d1 d2 : Discrepancy,
      apply_qc_rules ⟨keyCols, [⟨some "S1", none, some 110, some 5⟩]⟩ ⟨true, true, true⟩
          [("purity", ⟨some 95, some 105⟩)] =
        .ok ⟨qcReportCols, [d1, d2]⟩ ∧
      d1.issue = "Missing Value" ∧ d2.issue = "Out of Specification" ∧
      d1.sample_id = some "S1" ∧ d2.sample_id = some "S1") ∧
    apply_qc_rules ⟨keyCols, [⟨some "S1", some "B1", some 100, some 5⟩]⟩ ⟨true, true, true⟩
        [("purity", ⟨some 95, some 105⟩)] =
      .ok ⟨qcReportCols, []⟩ :=
  ⟨(qc_rules_composability [("purity", ⟨some 95, some 105⟩)] keyCols).1
      ⟨some "S1", none, some 110, some 5⟩ (by decide) (by decide) (by decide) (by decide),
    (qc_rules_composability [("purity", ⟨some 95, some 105⟩)] keyCols).2
      [⟨some "S1", some "B1", some 100, some 5⟩] (by decide) (by decide)⟩

/-- C10: `apply_qc_rules` demands all four key columns before looking at
any toggle: with any key column absent it fails for every rules
configuration; with all four present and all toggles off it returns the
empty report with the fixed columns. -/
theorem qc_rules_requires_key_columns (df : QCDataFrame) (spec_limits : SpecLimits) :
    ((¬ ∀ c ∈ keyCols, c ∈ df.columns) → ∀ rules_config : RulesConfig,
      apply_qc_rules df rules_config spec_limits =
        .error "DataFrame must contain columns: [sample_id, batch_id, purity, bio_activity]") ∧
    ((∀ c ∈ keyCols, c ∈ df.columns) →
      apply_qc_rules df ⟨false, false, false⟩ spec_limits = .ok ⟨qcReportCols, []⟩) := by
  constructor
  · intro h rules_config
    rw [apply_qc_rules, if_pos h]
  · intro h
    rw [apply_qc_rules, if_neg (not_not_intro h)]
    rfl

/-- Witness for C10: a frame missing `bio_activity` is rejected even with
all toggles off; the same frame with all four columns and all toggles off
yields the empty report. -/
theorem qc_rules_requires_key_columns_witness :
    (¬ ∀ c ∈ keyCols, c ∈ ["sample_id", "batch_id", "purity"]) ∧
    apply_qc_rules ⟨["sample_id", "batch_id", "purity"], []⟩ ⟨false, false, false⟩ [] =
      .error "DataFrame must contain columns: [sample_id, batch_id, purity, bio_activity]" ∧
    (∀ c ∈ keyCols, c ∈ keyCols) ∧
    apply_qc_rules ⟨keyCols, [⟨some "S1", some "B1", some 100, some 5⟩]⟩ ⟨false, false, false⟩
        [] = .ok ⟨qcReportCols, []⟩ :=
  ⟨by decide,
    (qc_rules_requires_key_columns ⟨["sample_id", "batch_id", "purity"], []⟩ []).1 (by decide)
      ⟨false, false, false⟩,
    fun c hc => hc,
    (qc_rules_requires_key_columns ⟨keyCols, [⟨some "S1", some "B1", some 100, some 5⟩]⟩ []).2
      (fun c hc => hc)⟩

/-! ### `run_anomaly_detection` -/

/-- A general numeric frame: named columns plus rows of cells aligned with
the column list (a missing cell is NaN). -/
structure NumDataFrame where
  columns : List String
  rows : List (List (Option ℚ))
deriving DecidableEq

/-- `row[c]`: the cell of a row under a column name (missing when the name
is not a column, which the guard rules out). -/
def cellAt (df : NumDataFrame) (row : List (Option ℚ)) (c : String) : Option ℚ :=
  match row.get? (df.columns.indexOf c) with
  | some v => v
  | none => none

/-- `df[cols].dropna()`: project each row onto `cols` and keep only the
rows with no missing cell there. -/
def selectClean (df : NumDataFrame) (cols : List String) : List (List ℚ) :=
  df.rows.filterMap (fun row =>
    let sel := cols.map (cellAt df row)
    if sel.all Option.isSome then some sel.reduceOption else none)

/-- The second component of the return value: the exact fitted subset with
its columns (`pd.DataFrame(columns=cols)` when empty). -/
structure FittedFrame where
  columns : List String
  rows : List (List ℚ)
deriving DecidableEq

/-- Embedding of `analytics.run_anomaly_detection`.  `fit_predict`
abstracts `IsolationForest(contamination, random_state).fit_predict`,
returning one ±1 label per fitted row; being total, it makes the broad
`except` fallback of the source unreachable.  The numeric `isinstance`
check on `contamination` always passes (the parameter is rational by
construction); the column-presence check precedes the range check as in
the source. -/
def run_anomaly_detection (fit_predict : ℚ → Option ℤ → List (List ℚ) → List ℤ)
    (df : NumDataFrame) (cols : List String) (contamination : ℚ)
    (random_state : Option ℤ) : Except String (List ℤ × FittedFrame) :=
  if ¬ ∀ c ∈ cols, c ∈ df.columns then
    .error "DataFrame must contain the requested columns"
  else if ¬ (0 < contamination ∧ contamination < 1 / 2) then
    .error "contamination must be between 0 and 0.5"
  else
    let data_to_fit := selectClean df cols
    if data_to_fit.length < 2 then .ok ([], ⟨cols, []⟩)
    else .ok (fit_predict contamination random_state data_to_fit, ⟨cols, data_to_fit⟩)

/-- C9: with valid columns, every contamination outside the open interval
(0, 0.5) is rejected with the `InvalidParameter` `ValueError`; a valid
contamination with fewer than 2 usable rows after dropping incomplete rows
yields the empty label list and the empty fitted frame (with its columns),
not a failure. -/
theorem anomaly_detection_validation (fit_predict : ℚ → Option ℤ → List (List ℚ) → List ℤ)
    (df : NumDataFrame) (cols : List String) (contamination : ℚ) (random_state : Option ℤ) :
    ((∀ c ∈ cols, c ∈ df.columns) → (contamination ≤ 0 ∨ 1 / 2 ≤ contamination) →
      run_anomaly_detection fit_predict df cols contamination random_state =
        .error "contamination must be between 0 and 0.5") ∧
    ((∀ c ∈ cols, c ∈ df.columns) → 0 < contamination → contamination < 1 / 2 →
      (selectClean df cols).length < 2 →
      run_anomaly_detection fit_predict df cols contamination random_state =
        .ok ([], ⟨cols, []⟩)) := by
  constructor
  · intro hc hout
    rw [run_anomaly_detection, if_neg (not_not_intro hc), if_pos]
    rcases hout with h | h
    · exact fun hin => absurd hin.1 (not_lt.mpr h)
    · exact fun hin => absurd hin.2 (not_lt.mpr h)
  · intro hc h0 h2 hlen
    rw [run_anomaly_detection, if_neg (not_not_intro hc),
      if_neg (not_not_intro ⟨h0, h2⟩)]
    simp only [if_pos hlen]

/-- Witness for C9: contamination 0.6 is rejected on a valid frame, and
contamination 0.1 on a frame with a single complete row returns the empty
labels and empty fitted frame. -/
theorem anomaly_detection_validation_witness :
    (∀ c ∈ ["x", "y"], c ∈ ["x", "y", "z"]) ∧
    run_anomaly_detection (fun _ _ _ => []) ⟨["x", "y", "z"], [[some 1, some 2, some 3]]⟩
        ["x", "y"] (3 / 5) none = .error "contamination must be between 0 and 0.5" ∧
    (selectClean ⟨["x", "y", "z"], [[some 1, some 2, some 3], [none, some 4, some 5]]⟩
        ["x", "y"]).length < 2 ∧
    run_anomaly_detection (fun _ _ _ => [])
        ⟨["x", "y", "z"], [[some 1, some 2, some 3], [none, some 4, some 5]]⟩
        ["x", "y"] (1 / 10) none = .ok ([], ⟨["x", "y"], []⟩) :=
  ⟨by decide,
    (anomaly_detection_validation (fun _ _ _ => [])
      ⟨["x", "y", "z"], [[some 1, some 2, some 3]]⟩ ["x", "y"] (3 / 5) none).1 (by decide)
      (Or.inr (by norm_num)),
    by decide,
    (anomaly_detection_validation (fun _ _ _ => [])
      ⟨["x", "y", "z"], [[some 1, some 2, some 3], [none, some 4, some 5]]⟩ ["x", "y"]
      (1 / 10) none).2 (by decide) (by norm_num) (by norm_num) (by decide)⟩

end Veritas
